import Mathlib

/-!
Shallow embedding of the pointing-and-pinch interaction core of the
react-three-tensorflow point-gesture-detection repository.

Numbers are modelled as rationals (`ℚ`); the host's opaque square root
(`Math.sqrt`) is passed in as a parameter wherever the source calls it,
as is the opaque geometric intersection test of the rendering library.
JavaScript `null`/`undefined` is modelled with `Option`.
-/

/- ### JavaScript numeric primitives -/

/-- JavaScript `Math.max` on two numbers. -/
def jsMax (a b : ℚ) : ℚ := if a ≤ b then b else a

/-- JavaScript `Math.min` on two numbers. -/
def jsMin (a b : ℚ) : ℚ := if a ≤ b then a else b

/-- JavaScript `Math.round`: rounds half away from zero toward positive
infinity, i.e. `⌊q + 1/2⌋`. -/
def jsRound (q : ℚ) : ℤ := ⌊q + 1 / 2⌋

/-- The `Math.round(x * 100) / 100` two-decimal rounding idiom used by
`getMetricsSummary` (src/unnamed/part_000, lines 184-193). -/
def round2 (q : ℚ) : ℚ := (jsRound (q * 100) : ℚ) / 100

/- ### Pinch classifier (src/unnamed/part_002, `usePinchDetection`) -/

/-- One hand landmark: normalized 3D coordinates, as delivered by the
landmark source (MediaPipe). -/
structure Landmark where
  x : ℚ
  y : ℚ
  z : ℚ
deriving Repr, DecidableEq

/-- Embeds `calculatePinchDistance` (src/unnamed/part_002, lines 20-38):
`null` when the landmark array is missing or shorter than 21, otherwise
the Euclidean distance between the thumb tip (index 4) and the index
finger tip (index 8).  The host's `Math.sqrt` is the parameter `sqrt`. -/
def calculatePinchDistance (sqrt : ℚ → ℚ)
    (landmarks : Option (List Landmark)) : Option ℚ :=
  match landmarks with
  | none => none
  | some lms =>
    if lms.length < 21 then none
    else
      match lms[4]?, lms[8]? with
      | some thumbTip, some indexTip =>
        let dx := thumbTip.x - indexTip.x
        let dy := thumbTip.y - indexTip.y
        let dz := thumbTip.z - indexTip.z
        some (sqrt (dx * dx + dy * dy + dz * dz))
      | _, _ => none

/-- The fixed calibration constant for a fully pinched hand
(src/unnamed/part_002, line 52). -/
def minDistance : ℚ := 2 / 100

/-- The fixed calibration constant for a relaxed/open hand
(src/unnamed/part_002, line 53). -/
def maxDistance : ℚ := 8 / 100

/-- Embeds the strength computation of `calculatePinchStrength`
(src/unnamed/part_002, lines 50-56):
`Math.max(0, Math.min(1, (distance - minDistance) / (maxDistance - minDistance)))`
inverted so that 1 = pinched and 0 = open. -/
def strengthOfDistance (distance : ℚ) : ℚ :=
  let normalizedDistance :=
    jsMax 0 (jsMin 1 ((distance - minDistance) / (maxDistance - minDistance)))
  1 - normalizedDistance

/-- The spec's clamp operator, written from the spec's words:
`clamp(v, lo, hi)` confines `v` to the interval `[lo, hi]`. -/
def clampSpec (v lo hi : ℚ) : ℚ := min hi (max lo v)

/-- The spec's strength formula, written from the spec's words:
`strength = 1 − clamp((distance − minDist)/(maxDist − minDist), 0, 1)`
with `minDist = 0.02` and `maxDist = 0.08`. -/
def strengthSpec (distance : ℚ) : ℚ :=
  1 - clampSpec ((distance - 2 / 100) / (8 / 100 - 2 / 100)) 0 1

/-- Threshold to start pinching (src/unnamed/part_002, line 61). -/
def pinchThreshold : ℚ := 7 / 10

/-- Threshold to stop pinching (src/unnamed/part_002, line 62). -/
def releaseThreshold : ℚ := 5 / 10

/-- A discrete pinch transition, the `type` field of the payload passed
to the registered pinch callback (src/unnamed/part_002, lines 74, 88). -/
inductive PinchEventType where
  | pinch_start
  | pinch_end
deriving Repr, DecidableEq

/-- Embeds the hysteresis branch of `calculatePinchStrength`
(src/unnamed/part_002, lines 60-95): given the previous boolean state
(`lastPinchStateRef.current`) and the current strength, returns the new
boolean state together with the transition event fired, if any. -/
def pinchHysteresis (currentlyPinching : Bool) (strength : ℚ) :
    Bool × Option PinchEventType :=
  if ¬currentlyPinching ∧ strength > pinchThreshold then
    (true, some PinchEventType.pinch_start)
  else if currentlyPinching ∧ strength < releaseThreshold then
    (false, some PinchEventType.pinch_end)
  else
    (currentlyPinching, none)

/-- Runs the hysteresis state machine over a list of strength samples,
collecting the fired transitions in order. -/
def pinchRun (p : Bool) : List ℚ → Bool × List PinchEventType
  | [] => (p, [])
  | s :: rest =>
    let step := pinchHysteresis p s
    let tail := pinchRun step.1 rest
    (tail.1, step.2.toList ++ tail.2)

/-- The mutable state of the `usePinchDetection` hook: the internal
hysteresis reference `lastPinchStateRef` and the two exposed React
states `isPinching` and `pinchStrength`. -/
structure PinchHookState where
  lastPinchState : Bool
  isPinching : Bool
  pinchStrength : ℚ
deriving Repr, DecidableEq

/-- Embeds one full invocation of `calculatePinchStrength`
(src/unnamed/part_002, lines 41-101) on the current landmark frame: when
the distance is `null` the exposed strength is forced to 0 and the
exposed `isPinching` to false and the function returns early — the
internal `lastPinchStateRef` is NOT updated and no callback fires;
otherwise the strength is computed and the hysteresis branch runs,
firing at most one transition. -/
def calculatePinchStrengthStep (sqrt : ℚ → ℚ)
    (landmarks : Option (List Landmark)) (st : PinchHookState) :
    PinchHookState × Option PinchEventType :=
  match calculatePinchDistance sqrt landmarks with
  | none =>
    ({ st with pinchStrength := 0, isPinching := false }, none)
  | some distance =>
    let strength := strengthOfDistance distance
    let step := pinchHysteresis st.lastPinchState strength
    ({ lastPinchState := step.1, isPinching := step.1,
       pinchStrength := strength }, step.2)

/-- Runs the full hook step over a sequence of landmark frames,
collecting the fired transitions in order. -/
def pinchHookRun (sqrt : ℚ → ℚ) (st : PinchHookState) :
    List (Option (List Landmark)) → PinchHookState × List PinchEventType
  | [] => (st, [])
  | frame :: rest =>
    let step := calculatePinchStrengthStep sqrt frame st
    let tail := pinchHookRun sqrt step.1 rest
    (tail.1, step.2.toList ++ tail.2)

/- ### Ray caster (src/src/utils/raycastUtils.js and src/unnamed/part_001) -/

/-- A 3D point/vector of the rendering scene. -/
structure Vec3 where
  x : ℚ
  y : ℚ
  z : ℚ
deriving Repr, DecidableEq

/-- A 2D point in normalized device coordinates. -/
structure Vec2 where
  x : ℚ
  y : ℚ
deriving Repr, DecidableEq

/-- An opaque camera/projection transform handle. -/
structure Camera where
  handle : ℕ
deriving Repr, DecidableEq

/-- A raycaster configured from a camera and a mouse position in
normalized device coordinates (`THREE.Raycaster.setFromCamera`). -/
structure Ray where
  camera : Camera
  mouse : Vec2
deriving Repr, DecidableEq

/-- Embeds `screenToRay` (src/src/utils/raycastUtils.js, lines 11-22):
converts normalized (0-1) screen coordinates to NDC (-1 to 1), flipping
the y axis, and builds the raycaster. -/
def screenToRay (camera : Camera) (x y : ℚ) : Ray :=
  { camera, mouse := { x := x * 2 - 1, y := -y * 2 + 1 } }

/-- A renderable mesh: an opaque geometry handle (`none` models a mesh
whose `geometry` field is null/undefined) and the `userData.id` tag
attached by the Bulb component (src/src/components/LightsScene.jsx,
line 54). -/
structure Mesh where
  geometry : Option ℕ
  userDataId : Option ℕ
deriving Repr, DecidableEq

/-- One raw geometric intersection of a ray with a single mesh, as
produced by the rendering library's intersection test. -/
structure RawHit where
  distance : ℚ
  point : Vec3
deriving Repr, DecidableEq

/-- The opaque per-mesh intersection test of the rendering library
(`THREE.Raycaster.intersectObject`): all intersections of the ray with
one mesh. -/
def IntersectFn : Type := Ray → Mesh → List RawHit

/-- One entry of the list returned by `intersectObjects`: the hit mesh
together with the distance from the ray origin and the world point. -/
structure Intersected where
  object : Mesh
  distance : ℚ
  point : Vec3
deriving Repr, DecidableEq

/-- Inserts an intersection into a list sorted by ascending distance. -/
def insertByDistance (i : Intersected) : List Intersected → List Intersected
  | [] => [i]
  | j :: rest =>
    if i.distance ≤ j.distance then i :: j :: rest
    else j :: insertByDistance i rest

/-- Sorts intersections by ascending distance, mirroring the rendering
library's contract that `intersectObjects` results are sorted by
distance, closest first. -/
def sortByDistance : List Intersected → List Intersected
  | [] => []
  | i :: rest => insertByDistance i (sortByDistance rest)

/-- Embeds `getIntersections` (src/src/utils/raycastUtils.js,
lines 31-33) specialized to non-recursive traversal as used by
`findIntersectedBulb`: gathers every intersection of the ray with the
given objects and returns them sorted by ascending distance. -/
def getIntersections (intersect : IntersectFn) (ray : Ray)
    (objects : List Mesh) : List Intersected :=
  sortByDistance
    (objects.flatMap fun m =>
      (intersect ray m).map fun h =>
        { object := m, distance := h.distance, point := h.point })

/-- The record returned by `findIntersectedBulb` on a hit
(src/src/utils/raycastUtils.js, lines 61-66).  `bulbId` is
`closest.object.userData?.id || null`: JavaScript `||` turns both a
missing id and the falsy id `0` into `null`. -/
structure FoundBulb where
  object : Mesh
  point : Vec3
  distance : ℚ
  bulbId : Option ℕ
deriving Repr, DecidableEq

/-- The `userData?.id || null` read used for the `bulbId` field. -/
def userDataIdOrNull (m : Mesh) : Option ℕ :=
  match m.userDataId with
  | some i => if i = 0 then none else some i
  | none => none

/-- Embeds `findIntersectedBulb` (src/src/utils/raycastUtils.js,
lines 43-70): null camera or null/empty mesh list gives `null`; meshes
without valid geometry are filtered out; otherwise the closest
intersection (head of the distance-sorted list) is returned. -/
def findIntersectedBulb (intersect : IntersectFn) (camera : Option Camera)
    (x y : ℚ) (bulbMeshes : Option (List Mesh)) : Option FoundBulb :=
  match camera, bulbMeshes with
  | none, _ => none
  | _, none => none
  | some cam, some meshes =>
    if meshes.length = 0 then none
    else
      let validMeshes := meshes.filter fun m => m.geometry.isSome
      if validMeshes.length = 0 then none
      else
        let ray := screenToRay cam x y
        match getIntersections intersect ray validMeshes with
        | [] => none
        | closest :: _ =>
          some { object := closest.object, point := closest.point,
                 distance := closest.distance,
                 bulbId := userDataIdOrNull closest.object }

/-- A bulb ref as registered by the Bulb component through
`useImperativeHandle` (src/src/components/LightsScene.jsx, lines 38-47):
a stable id, the mesh (possibly not yet mounted), and the on/off state
that `toggle` flips. -/
structure BulbRef where
  id : ℕ
  mesh : Option Mesh
  isOn : Bool
deriving Repr, DecidableEq

/-- The `toggle` operation exposed by the Bulb component
(src/src/components/LightsScene.jsx, lines 39-44): flips the on/off
state once. -/
def toggleBulb (b : BulbRef) : BulbRef := { b with isOn := !b.isOn }

/-- Embeds `getFingerTipPosition` (src/unnamed/part_001, lines 11-21):
the index finger tip (landmark 8), or `null` when the landmark array is
missing or has no entry at index 8. -/
def getFingerTipPosition (landmarks : Option (List Landmark)) :
    Option Landmark :=
  match landmarks with
  | none => none
  | some lms => lms[8]?

/-- The hit information exposed by `useRaycasting`
(src/unnamed/part_001, lines 55-61). -/
structure HitInfo where
  bulbId : Option ℕ
  object : Mesh
  point : Vec3
  distance : ℚ
  fingerPosition : Landmark
deriving Repr, DecidableEq

/-- The state of the `useRaycasting` hook: the exposed `hitInfo` and
`pointing` React states and the internal `lastHitIdRef`. -/
structure RaycastState where
  hitInfo : Option HitInfo
  pointing : Bool
  lastHitId : Option ℕ
deriving Repr, DecidableEq

/-- Embeds `performRaycast` (src/unnamed/part_001, lines 24-81): resets
to the neutral state when the camera, the finger tip, or the bulb ref
array is missing, or when no mounted bulb mesh exists; otherwise runs
`findIntersectedBulb` and exposes its result. -/
def performRaycast (intersect : IntersectFn) (camera : Option Camera)
    (landmarks : Option (List Landmark))
    (bulbRefs : Option (List (Option BulbRef))) : RaycastState :=
  match getFingerTipPosition landmarks, camera, bulbRefs with
  | none, _, _ => { hitInfo := none, pointing := false, lastHitId := none }
  | _, none, _ => { hitInfo := none, pointing := false, lastHitId := none }
  | _, _, none => { hitInfo := none, pointing := false, lastHitId := none }
  | some fingerTip, some cam, some refs =>
    let bulbMeshes := refs.filterMap fun r =>
      match r with
      | some bulbRef => bulbRef.mesh
      | none => none
    if bulbMeshes.length = 0 then
      { hitInfo := none, pointing := false, lastHitId := none }
    else
      match findIntersectedBulb intersect (some cam) fingerTip.x fingerTip.y
          (some bulbMeshes) with
      | some found =>
        let newHitInfo : HitInfo :=
          { bulbId := found.bulbId, object := found.object,
            point := found.point, distance := found.distance,
            fingerPosition := fingerTip }
        { hitInfo := some newHitInfo, pointing := true,
          lastHitId := found.bulbId }
      | none => { hitInfo := none, pointing := false, lastHitId := none }

/- ### Metrics aggregator (src/unnamed/part_000, `useMetrics`) -/

/-- Configuration (src/unnamed/part_000, line 5). -/
def MAX_LOG_ENTRIES : ℕ := 1000

/-- Configuration (src/unnamed/part_000, line 6). -/
def FPS_SAMPLE_SIZE : ℕ := 60

/-- Configuration (src/unnamed/part_000, line 7), in milliseconds. -/
def DWELL_THRESHOLD : ℚ := 500

/-- Configuration (src/unnamed/part_000, line 8), in meters. -/
def MISS_DISTANCE_THRESHOLD : ℚ := 1 / 2

/-- The type-specific payload of a logged event.  Each logging function
fills a subset of the fields; the rest stay `none` (undefined). -/
structure EventData where
  targetId : Option ℕ
  timestamp : ℚ
  latency : Option ℚ
  dwellTime : Option ℚ
  distance : Option ℚ
  successful : Option Bool
  nearMiss : Option Bool
deriving Repr, DecidableEq

/-- An empty payload carrying only a timestamp. -/
def emptyEventData (timestamp : ℚ) : EventData :=
  { targetId := none, timestamp := timestamp, latency := none,
    dwellTime := none, distance := none, successful := none,
    nearMiss := none }

/-- A logged event (src/unnamed/part_000, lines 283-288): unique id,
type tag, timestamp relative to session start, and payload. -/
structure MetricEvent where
  id : String
  type : String
  timestamp : ℚ
  data : EventData
deriving Repr, DecidableEq

/-- The FIFO bounded-log core of `addEvent` (src/unnamed/part_000,
lines 290-295): push the new entry at the end, then drop the oldest
entry if the log exceeds `MAX_LOG_ENTRIES`. -/
def addEventList {α : Type} (e : α) (events : List α) : List α :=
  let pushed := events ++ [e]
  if MAX_LOG_ENTRIES < pushed.length then pushed.tail else pushed

/-- Embeds `addEvent` (src/unnamed/part_000, lines 282-298).  The
`generateId()` result is passed in as `id`. -/
def addEvent (id : String) (type : String) (data : EventData)
    (events : List MetricEvent) : List MetricEvent :=
  addEventList { id, type, timestamp := data.timestamp, data } events

/-- The per-session counters (src/unnamed/part_000, lines 20-30). -/
structure SessionData where
  totalAttempts : ℕ
  successfulHits : ℕ
  misses : ℕ
  nearMisses : ℕ
  dwellTimes : List ℚ
  latencies : List ℚ
  pointingStartTime : Option ℚ
  lastTargetId : Option ℕ
deriving Repr, DecidableEq

/-- The derived system performance metrics (src/unnamed/part_000,
lines 33-38). -/
structure SystemMetrics where
  averageFPS : ℤ
  fpsStability : ℚ
deriving Repr, DecidableEq

/-- The aggregate mutable metrics store `metricsData`
(src/unnamed/part_000, lines 11-39). -/
structure MetricsData where
  events : List MetricEvent
  fpsHistory : List ℚ
  lastFrameTime : ℚ
  currentSession : SessionData
  systemMetrics : SystemMetrics
deriving Repr, DecidableEq

/-- JavaScript `array.reduce((a, b) => a + b)` without an initial value:
the first element seeds the accumulator.  (The source only applies it to
non-empty arrays.) -/
def jsReduceSum : List ℚ → ℚ
  | [] => 0
  | h :: t => t.foldl (· + ·) h

/-- The window update of `trackFPS` (src/unnamed/part_000, lines 51-54):
push the new sample, then shift the oldest one out if the window exceeds
`FPS_SAMPLE_SIZE`. -/
def fpsWindowPush (fps : ℚ) (history : List ℚ) : List ℚ :=
  let pushed := history ++ [fps]
  if FPS_SAMPLE_SIZE < pushed.length then pushed.tail else pushed

/-- The statistics update of `trackFPS` (src/unnamed/part_000,
lines 57-64): once the window holds at least 10 samples, recompute
`averageFPS = Math.round(mean)` and `fpsStability = stdDev / mean` (or 1
when the mean is not positive); otherwise keep the old metrics. -/
def fpsWindowStats (sqrt : ℚ → ℚ) (history : List ℚ)
    (old : SystemMetrics) : SystemMetrics :=
  if 10 ≤ history.length then
    let mean := jsReduceSum history / history.length
    let variance :=
      (history.foldl (fun acc f => acc + (f - mean) ^ 2) 0) / history.length
    let stdDev := sqrt variance
    { averageFPS := jsRound mean,
      fpsStability := if mean > 0 then stdDev / mean else 1 }
  else old

/-- Embeds `trackFPS` (src/unnamed/part_000, lines 46-67): records the
instantaneous fps `1000 / deltaTime` into the rolling window of capacity
`FPS_SAMPLE_SIZE` and recomputes the derived system metrics.  The host's
`Math.sqrt` is the parameter `sqrt`, and `performance.now()` the
parameter `now`. -/
def trackFPS (sqrt : ℚ → ℚ) (now : ℚ) (d : MetricsData) : MetricsData :=
  let deltaTime := now - d.lastFrameTime
  let fps := 1000 / deltaTime
  let history := fpsWindowPush fps d.fpsHistory
  { d with fpsHistory := history, lastFrameTime := now,
           systemMetrics := fpsWindowStats sqrt history d.systemMetrics }

/-- The arithmetic mean, written from the spec's words. -/
def meanSpec (l : List ℚ) : ℚ := l.sum / l.length

/-- The population variance, written from the spec's words: the mean of
the squared deviations from the mean. -/
def popVarianceSpec (l : List ℚ) : ℚ :=
  (l.map fun x => (x - meanSpec l) ^ 2).sum / l.length

/-- Embeds `logToggleSuccess` (src/unnamed/part_000, lines 123-139).
`timestamp` is `performance.now() - sessionStartTime`; the event id is
passed in.  JavaScript truthiness makes a `null` or zero
`pinchStartTime` yield latency 0. -/
def logToggleSuccess (id : String) (timestamp : ℚ) (targetId : Option ℕ)
    (pinchStartTime : Option ℚ) (d : MetricsData) : MetricsData :=
  let latency :=
    match pinchStartTime with
    | some t => if t = 0 then 0 else timestamp - t
    | none => 0
  let session :=
    { d.currentSession with
      successfulHits := d.currentSession.successfulHits + 1,
      totalAttempts := d.currentSession.totalAttempts + 1,
      latencies :=
        if latency > 0 then d.currentSession.latencies ++ [latency]
        else d.currentSession.latencies }
  { d with currentSession := session,
           events := addEvent id "TOGGLE_SUCCESS"
             { emptyEventData timestamp with
               targetId := targetId, latency := some latency } d.events }

/-- Embeds `logMiss` (src/unnamed/part_000, lines 141-159): counts a
miss and an attempt, classifies a near miss when a distance is supplied
and lies within `MISS_DISTANCE_THRESHOLD`, and logs a `MISS` event. -/
def logMiss (id : String) (timestamp : ℚ) (attemptedTargetId : Option ℕ)
    (actualDistance : Option ℚ) (d : MetricsData) : MetricsData :=
  let isNearMiss :=
    match actualDistance with
    | some dist => decide (dist ≤ MISS_DISTANCE_THRESHOLD)
    | none => false
  let session :=
    { d.currentSession with
      misses := d.currentSession.misses + 1,
      totalAttempts := d.currentSession.totalAttempts + 1,
      nearMisses :=
        if isNearMiss then d.currentSession.nearMisses + 1
        else d.currentSession.nearMisses }
  { d with currentSession := session,
           events := addEvent id "MISS"
             { emptyEventData timestamp with
               targetId := attemptedTargetId, distance := actualDistance,
               nearMiss := some isNearMiss } d.events }

/-- The record returned by `getMetricsSummary` (src/unnamed/part_000,
lines 182-202). -/
structure Summary where
  accuracy : ℚ
  totalAttempts : ℕ
  successfulHits : ℕ
  misses : ℕ
  nearMisses : ℕ
  averageLatency : ℚ
  averageDwellTime : ℚ
  missToHitRatio : ℚ
  averageFPS : ℤ
  fpsStability : ℚ
  sessionDuration : ℤ
  totalEvents : ℕ
deriving Repr, DecidableEq

/-- Embeds `getMetricsSummary` (src/unnamed/part_000, lines 162-203) as
a pure function of the store; `now` is `performance.now()` and
`sessionStart` the module's `sessionStartTime`. -/
def getMetricsSummary (now sessionStart : ℚ) (d : MetricsData) : Summary :=
  let session := d.currentSession
  let accuracy :=
    if session.totalAttempts > 0 then
      ((session.successfulHits : ℚ) / (session.totalAttempts : ℚ)) * 100
    else 0
  let averageLatency :=
    if session.latencies.length > 0 then
      jsReduceSum session.latencies / session.latencies.length
    else 0
  let averageDwellTime :=
    if session.dwellTimes.length > 0 then
      jsReduceSum session.dwellTimes / session.dwellTimes.length
    else 0
  let missToHit :=
    if session.successfulHits > 0 then
      (session.misses : ℚ) / (session.successfulHits : ℚ)
    else (session.misses : ℚ)
  { accuracy := round2 accuracy,
    totalAttempts := session.totalAttempts,
    successfulHits := session.successfulHits,
    misses := session.misses,
    nearMisses := session.nearMisses,
    averageLatency := round2 averageLatency,
    averageDwellTime := round2 averageDwellTime,
    missToHitRatio := round2 missToHit,
    averageFPS := d.systemMetrics.averageFPS,
    fpsStability := (jsRound (d.systemMetrics.fpsStability * 1000) : ℚ) / 1000,
    sessionDuration := jsRound ((now - sessionStart) / 1000),
    totalEvents := d.events.length }

/- ### CSV export (src/unnamed/part_000, `buildCSVData`) -/

/-- The event-log header row (src/unnamed/part_000, line 337). -/
def csvEventHeader : String :=
  "Event ID,Type,Timestamp,Target ID,Latency,Dwell Time,Distance,Success"

/-- The `value?.toFixed(n) || ''` rendering of an optional numeric
payload field: absent fields render as the empty string.  `toFixed` is
the host's number formatting, passed in as a parameter; on a string `s`,
`s || ''` is `s` itself when `s` is non-empty and `''` when `s` is
empty, so the fallback composes to `Option.getD ""`. -/
def optionalNumberField (toFixed : ℕ → ℚ → String) (digits : ℕ)
    (value : Option ℚ) : String :=
  (value.map (toFixed digits)).getD ""

/-- The `data.targetId || ''` rendering: a missing id — or the falsy id
`0` — renders as the empty string.  `showNat` is the host's implicit
number-to-string conversion. -/
def targetIdField (showNat : ℕ → String) (targetId : Option ℕ) : String :=
  match targetId with
  | some i => if i = 0 then "" else showNat i
  | none => ""

/-- The eight cells of one event row of the CSV export
(src/unnamed/part_000, lines 341-350), before joining with commas. -/
def eventRowCells (toFixed : ℕ → ℚ → String) (showNat : ℕ → String)
    (event : MetricEvent) : List String :=
  [event.id,
   event.type,
   toFixed 2 event.timestamp,
   targetIdField showNat event.data.targetId,
   optionalNumberField toFixed 2 event.data.latency,
   optionalNumberField toFixed 2 event.data.dwellTime,
   optionalNumberField toFixed 3 event.data.distance,
   if event.data.successful.getD false then "true" else "false"]

/-- One joined event row of the CSV export. -/
def eventRow (toFixed : ℕ → ℚ → String) (showNat : ℕ → String)
    (event : MetricEvent) : String :=
  String.intercalate "," (eventRowCells toFixed showNat event)

/-- The event-log section of the CSV export (src/unnamed/part_000,
lines 337-351): the header row followed by one row per logged event. -/
def buildCSVEventSection (toFixed : ℕ → ℚ → String) (showNat : ℕ → String)
    (events : List MetricEvent) : List String :=
  csvEventHeader :: events.map (eventRow toFixed showNat)

/- ### Interaction correlator -/

/-- Modelled from the spec: the Interaction Correlator's pinch_start
handler.  The App component that wires `usePinchDetection` to
`useMetrics` is not among the provided source files — only its callees
(the Bulb `toggle`, `logToggleSuccess` and `logMiss`) are; per the spec,
on each pinch_start it consults the Ray Caster's current hit: if a
target is hit it invokes that target's toggle operation and records a
success event with latency measured from pinch start, and if no target
is hit it records a miss event.  The toggle mirrors the provided App
wiring (src/src/App.jsx, lines 26-40), which finds the bulb ref whose id
equals the hit's `bulbId` and toggles it. -/
def onPinchStartCorrelate (eventId : String) (now : ℚ)
    (pinchStartTime : ℚ) (hit : Option HitInfo) (bulbs : List BulbRef)
    (d : MetricsData) : List BulbRef × MetricsData :=
  match hit with
  | some h =>
    (bulbs.map fun b => if some b.id = h.bulbId then toggleBulb b else b,
     logToggleSuccess eventId now h.bulbId (some pinchStartTime) d)
  | none =>
    (bulbs, logMiss eventId now none none d)

/- ### Bridge lemmas -/

theorem jsMax_eq_max (a b : ℚ) : jsMax a b = max a b := by
  unfold jsMax
  rcases le_total a b with h | h
  · rw [if_pos h, max_eq_right h]
  · rcases eq_or_lt_of_le h with rfl | hlt
    · simp
    · rw [if_neg (not_le.mpr hlt), max_eq_left h]

theorem jsMin_eq_min (a b : ℚ) : jsMin a b = min a b := by
  unfold jsMin
  rcases le_total a b with h | h
  · rw [if_pos h, min_eq_left h]
  · rcases eq_or_lt_of_le h with rfl | hlt
    · simp
    · rw [if_neg (not_le.mpr hlt), min_eq_right h]

theorem strengthOfDistance_eq_spec (d : ℚ) :
    strengthOfDistance d = strengthSpec d := by
  unfold strengthOfDistance strengthSpec clampSpec minDistance maxDistance
  rw [jsMax_eq_max, jsMin_eq_min, max_min_distrib_left]
  norm_num

theorem strengthOfDistance_nonneg (d : ℚ) : 0 ≤ strengthOfDistance d := by
  unfold strengthOfDistance
  rw [jsMax_eq_max, jsMin_eq_min]
  have h : max 0 (min 1 ((d - minDistance) / (maxDistance - minDistance))) ≤ 1 :=
    max_le (by norm_num) (min_le_left _ _)
  linarith

theorem strengthOfDistance_le_one (d : ℚ) : strengthOfDistance d ≤ 1 := by
  unfold strengthOfDistance
  rw [jsMax_eq_max, jsMin_eq_min]
  have h : (0 : ℚ) ≤ max 0 (min 1 ((d - minDistance) / (maxDistance - minDistance))) :=
    le_max_left _ _
  linarith

theorem pinchHysteresis_false_of_le {s : ℚ} (h : s ≤ pinchThreshold) :
    pinchHysteresis false s = (false, none) := by
  have h' : ¬(pinchThreshold < s) := not_lt.mpr h
  simp [pinchHysteresis, h']

theorem pinchHysteresis_false_of_gt {s : ℚ} (h : pinchThreshold < s) :
    pinchHysteresis false s = (true, some PinchEventType.pinch_start) := by
  simp [pinchHysteresis, h]

theorem pinchHysteresis_true_of_ge {s : ℚ} (h : releaseThreshold ≤ s) :
    pinchHysteresis true s = (true, none) := by
  have h' : ¬(s < releaseThreshold) := not_lt.mpr h
  simp [pinchHysteresis, h']

theorem pinchHysteresis_true_of_lt {s : ℚ} (h : s < releaseThreshold) :
    pinchHysteresis true s = (false, some PinchEventType.pinch_end) := by
  simp [pinchHysteresis, h]

theorem pinchRun_false_of_all_le {xs : List ℚ}
    (h : ∀ x ∈ xs, x ≤ pinchThreshold) : pinchRun false xs = (false, []) := by
  induction xs with
  | nil => rfl
  | cons a t ih =>
    have ha : a ≤ pinchThreshold := h a (by simp)
    have ht : ∀ x ∈ t, x ≤ pinchThreshold := fun x hx => h x (by simp [hx])
    simp [pinchRun, pinchHysteresis_false_of_le ha, ih ht]

theorem pinchRun_true_release {mid : List ℚ} {v : ℚ}
    (hmid : ∀ x ∈ mid, releaseThreshold ≤ x) (hv : v < releaseThreshold) :
    pinchRun true (mid ++ [v]) = (false, [PinchEventType.pinch_end]) := by
  induction mid with
  | nil =>
    simp [pinchRun, pinchHysteresis_true_of_lt hv]
  | cons a t ih =>
    have ha : releaseThreshold ≤ a := hmid a (by simp)
    have ht : ∀ x ∈ t, releaseThreshold ≤ x := fun x hx => hmid x (by simp [hx])
    have stepped : pinchRun true ((a :: t) ++ [v]) =
        ((pinchRun true (t ++ [v])).1, (pinchRun true (t ++ [v])).2) := by
      simp [pinchRun, pinchHysteresis_true_of_ge ha]
    rw [stepped, ih ht]

theorem pinchRun_append (p : Bool) (xs ys : List ℚ) :
    pinchRun p (xs ++ ys) =
      ((pinchRun (pinchRun p xs).1 ys).1,
       (pinchRun p xs).2 ++ (pinchRun (pinchRun p xs).1 ys).2) := by
  induction xs generalizing p with
  | nil => simp [pinchRun]
  | cons a t ih =>
    simp [pinchRun, ih]

/- ### Claim theorems: pinch classifier -/

/-- C1: the pinching boolean flips Open → Pinching exactly when the
strength exceeds the start threshold 0.7, flips Pinching → Open exactly
when the strength drops below the release threshold 0.5, and stays
unchanged otherwise; a strength sequence that rises above 0.7 and later
falls below 0.5 produces exactly two transitions (a pinch_start then a
pinch_end) regardless of how many samples lie in between; and a sequence
that never exceeds 0.7 never sets pinching true and fires no
transition. -/
theorem pinch_hysteresis_claim :
    (∀ s : ℚ, (pinchHysteresis false s).1 = true ↔ pinchThreshold < s)
    ∧ (∀ s : ℚ, (pinchHysteresis true s).1 = false ↔ s < releaseThreshold)
    ∧ (∀ (pre mid : List ℚ) (u v : ℚ),
        (∀ x ∈ pre, x ≤ pinchThreshold) → pinchThreshold < u →
        (∀ x ∈ mid, releaseThreshold ≤ x) → v < releaseThreshold →
        pinchRun false (pre ++ u :: (mid ++ [v])) =
          (false, [PinchEventType.pinch_start, PinchEventType.pinch_end]))
    ∧ (∀ xs : List ℚ, (∀ x ∈ xs, x ≤ pinchThreshold) →
        pinchRun false xs = (false, [])) := by
  refine ⟨?_, ?_, ?_, ?_⟩
  · intro s
    rcases lt_or_ge pinchThreshold s with h | h
    · simp [pinchHysteresis_false_of_gt h, h]
    · simp [pinchHysteresis_false_of_le h, not_lt.mpr h]
  · intro s
    rcases lt_or_ge s releaseThreshold with h | h
    · simp [pinchHysteresis_true_of_lt h, h]
    · simp [pinchHysteresis_true_of_ge h, not_lt.mpr h]
  · intro pre mid u v hpre hu hmid hv
    rw [pinchRun_append, pinchRun_false_of_all_le hpre]
    have hrest : pinchRun false (u :: (mid ++ [v])) =
        (false, [PinchEventType.pinch_start, PinchEventType.pinch_end]) := by
      have step : pinchHysteresis false u =
          (true, some PinchEventType.pinch_start) :=
        pinchHysteresis_false_of_gt hu
      simp [pinchRun, step, pinchRun_true_release hmid hv]
    simp [hrest]
  · intro xs h
    exact pinchRun_false_of_all_le h

/-- C1 witness: the concrete strength sequence 0.5, 0.8, 0.6, 0.9, 0.1
rises above 0.7 at the second sample and falls below 0.5 at the last,
producing exactly a pinch_start followed by a pinch_end. -/
theorem pinch_hysteresis_claim_witness :
    pinchRun false [5/10, 8/10, 6/10, 9/10, 1/10] =
      (false, [PinchEventType.pinch_start, PinchEventType.pinch_end]) := by
  have h := pinch_hysteresis_claim.2.2.1 [5/10] [6/10, 9/10] (8/10) (1/10)
    (by intro x hx; simp at hx; rw [hx]; norm_num [pinchThreshold])
    (by norm_num [pinchThreshold])
    (by intro x hx; simp at hx; rcases hx with rfl | rfl <;>
        norm_num [releaseThreshold])
    (by norm_num [releaseThreshold])
  simpa using h

/-- C3: whenever the landmark frame yields a non-null thumb-to-index
distance `d`, the pinch strength exposed by the classifier step equals
`1 − clamp((d − 0.02)/(0.08 − 0.02), 0, 1)` and lies in `[0, 1]`. -/
theorem pinch_strength_formula_claim :
    ∀ (sqrt : ℚ → ℚ) (landmarks : Option (List Landmark))
      (st : PinchHookState) (d : ℚ),
      calculatePinchDistance sqrt landmarks = some d →
      (calculatePinchStrengthStep sqrt landmarks st).1.pinchStrength =
          1 - clampSpec ((d - 2 / 100) / (8 / 100 - 2 / 100)) 0 1
      ∧ 0 ≤ (calculatePinchStrengthStep sqrt landmarks st).1.pinchStrength
      ∧ (calculatePinchStrengthStep sqrt landmarks st).1.pinchStrength ≤ 1 := by
  intro sqrt landmarks st d h
  have hstrength :
      (calculatePinchStrengthStep sqrt landmarks st).1.pinchStrength =
        strengthOfDistance d := by
    simp only [calculatePinchStrengthStep, h]
  refine ⟨?_, ?_, ?_⟩
  · rw [hstrength, strengthOfDistance_eq_spec]
    rfl
  · rw [hstrength]
    exact strengthOfDistance_nonneg d
  · rw [hstrength]
    exact strengthOfDistance_le_one d

/-- C3 witness: with a constant square root returning 0.05 and a full
21-landmark frame, the exposed strength is 0.5, which matches the
clamped spec formula at distance 0.05. -/
theorem pinch_strength_formula_claim_witness :
    (calculatePinchStrengthStep (fun _ => 5/100)
        (some (List.replicate 21 ⟨0, 0, 0⟩)) ⟨false, false, 0⟩).1.pinchStrength =
      1 - clampSpec ((5/100 - 2 / 100) / (8 / 100 - 2 / 100)) 0 1 := by
  have h : calculatePinchDistance (fun _ => 5/100)
      (some (List.replicate 21 ⟨0, 0, 0⟩)) = some (5/100) := by
    simp [calculatePinchDistance]
  exact (pinch_strength_formula_claim _ _ ⟨false, false, 0⟩ _ h).1

/-- C10: if the classifier is internally Pinching and the landmark frame
yields a null distance, no transition fires, the exposed `isPinching`
drops to false, yet the internal hysteresis reference stays Pinching;
on a later valid frame a pinch_end fires exactly when the strength is
below the release threshold 0.5; and over a run of null frames followed
by one valid low-strength frame exactly one transition — a pinch_end —
is emitted. -/
theorem pinch_null_frame_claim :
    ∀ (sqrt : ℚ → ℚ) (st : PinchHookState), st.lastPinchState = true →
      (∀ lm, calculatePinchDistance sqrt lm = none →
        calculatePinchStrengthStep sqrt lm st =
          ({ st with pinchStrength := 0, isPinching := false }, none))
      ∧ (∀ lm d, calculatePinchDistance sqrt lm = some d →
          strengthOfDistance d < releaseThreshold →
          (calculatePinchStrengthStep sqrt lm st).2 =
            some PinchEventType.pinch_end)
      ∧ (∀ lm d, calculatePinchDistance sqrt lm = some d →
          releaseThreshold ≤ strengthOfDistance d →
          (calculatePinchStrengthStep sqrt lm st).2 = none)
      ∧ (∀ (nullFrames : List (Option (List Landmark))) (endFrame : Option (List Landmark)) (d : ℚ),
          (∀ f ∈ nullFrames, calculatePinchDistance sqrt f = none) →
          calculatePinchDistance sqrt endFrame = some d →
          strengthOfDistance d < releaseThreshold →
          pinchHookRun sqrt st (nullFrames ++ [endFrame]) =
            (⟨false, false, strengthOfDistance d⟩,
             [PinchEventType.pinch_end])) := by
  intro sqrt st hst
  refine ⟨?_, ?_, ?_, ?_⟩
  · intro lm h
    simp only [calculatePinchStrengthStep, h]
  · intro lm d h hlow
    simp only [calculatePinchStrengthStep, h, hst,
      pinchHysteresis_true_of_lt hlow]
  · intro lm d h hhigh
    simp only [calculatePinchStrengthStep, h, hst,
      pinchHysteresis_true_of_ge hhigh]
  · intro nullFrames endFrame d hnull hend hlow
    induction nullFrames generalizing st with
    | nil =>
      simp only [List.nil_append, pinchHookRun, calculatePinchStrengthStep,
        hend, hst, pinchHysteresis_true_of_lt hlow]
      rfl
    | cons f t ih =>
      have hf : calculatePinchDistance sqrt f = none := hnull f (by simp)
      have ht : ∀ g ∈ t, calculatePinchDistance sqrt g = none :=
        fun g hg => hnull g (by simp [hg])
      have step : calculatePinchStrengthStep sqrt f st =
          ({ st with pinchStrength := 0, isPinching := false }, none) := by
        simp only [calculatePinchStrengthStep, hf]
      have tail := ih { st with pinchStrength := 0, isPinching := false }
        (by simpa using hst) ht
      have stepped : pinchHookRun sqrt st ((f :: t) ++ [endFrame]) =
          ((pinchHookRun sqrt
              { st with pinchStrength := 0, isPinching := false }
              (t ++ [endFrame])).1,
           (pinchHookRun sqrt
              { st with pinchStrength := 0, isPinching := false }
              (t ++ [endFrame])).2) := by
        simp [pinchHookRun, step]
      rw [stepped, tail]

/-- C10 witness: internally Pinching, one null frame (no landmarks)
followed by a valid open-hand frame (constant square root 0.06, hence
strength 1/3 < 0.5) emits exactly one pinch_end. -/
theorem pinch_null_frame_claim_witness :
    pinchHookRun (fun _ => 6/100) ⟨true, true, 1⟩
        [none, some (List.replicate 21 ⟨0, 0, 0⟩)] =
      (⟨false, false, strengthOfDistance (6/100)⟩,
       [PinchEventType.pinch_end]) := by
  have h := (pinch_null_frame_claim (fun _ => 6/100) ⟨true, true, 1⟩ rfl).2.2.2
    [none] (some (List.replicate 21 ⟨0, 0, 0⟩)) (6/100)
    (by intro f hf; simp at hf; rw [hf]; rfl)
    (by simp [calculatePinchDistance])
    (by norm_num [strengthOfDistance, jsMax, jsMin, minDistance, maxDistance,
      releaseThreshold])
  simpa using h

/- ### Claim theorems: ray caster -/

/-- C4: for every camera, fingertip coordinate and pair of valid targets
that the derived ray intersects at distances `d1 < d2` (with `d1`
positive), `findIntersectedBulb` returns the target at distance `d1` —
in either listing order. -/
theorem nearest_hit_claim :
    ∀ (intersect : IntersectFn) (cam : Camera) (x y d1 d2 : ℚ)
      (m1 m2 : Mesh) (p1 p2 : Vec3),
      m1.geometry.isSome = true → m2.geometry.isSome = true →
      (∀ r, intersect r m1 = [{ distance := d1, point := p1 }]) →
      (∀ r, intersect r m2 = [{ distance := d2, point := p2 }]) →
      0 < d1 → d1 < d2 →
      findIntersectedBulb intersect (some cam) x y (some [m1, m2]) =
        some { object := m1, point := p1, distance := d1,
               bulbId := userDataIdOrNull m1 }
      ∧ findIntersectedBulb intersect (some cam) x y (some [m2, m1]) =
        some { object := m1, point := p1, distance := d1,
               bulbId := userDataIdOrNull m1 } := by
  intro intersect cam x y d1 d2 m1 m2 p1 p2 hg1 hg2 ho1 ho2 hpos hlt
  constructor
  · simp [findIntersectedBulb, getIntersections, List.filter, hg1, hg2,
      ho1, ho2, sortByDistance, insertByDistance, le_of_lt hlt]
  · simp [findIntersectedBulb, getIntersections, List.filter, hg1, hg2,
      ho1, ho2, sortByDistance, insertByDistance, not_le.mpr hlt]

/-- C4 witness: two unit-sphere bulbs hit at distances 2 and 5; the
closer one (id 1) is returned whichever way the mesh list is ordered. -/
theorem nearest_hit_claim_witness :
    findIntersectedBulb
        (fun _ m => if m.userDataId = some 1
          then [{ distance := 2, point := ⟨0, 0, 0⟩ }]
          else [{ distance := 5, point := ⟨0, 0, 0⟩ }])
        (some ⟨0⟩) (1/2) (1/2)
        (some [⟨some 0, some 1⟩, ⟨some 0, some 2⟩]) =
      some { object := ⟨some 0, some 1⟩, point := ⟨0, 0, 0⟩,
             distance := 2, bulbId := userDataIdOrNull ⟨some 0, some 1⟩ } := by
  have h := nearest_hit_claim
    (fun _ m => if m.userDataId = some 1
      then [{ distance := 2, point := ⟨0, 0, 0⟩ }]
      else [{ distance := 5, point := ⟨0, 0, 0⟩ }])
    ⟨0⟩ (1/2) (1/2) 2 5 ⟨some 0, some 1⟩ ⟨some 0, some 2⟩ ⟨0, 0, 0⟩ ⟨0, 0, 0⟩
    rfl rfl (fun r => by simp) (fun r => by simp)
    (by norm_num) (by norm_num)
  exact h.1

/-- C5 counterexample: a landmark frame of only 9 entries (fewer than
21) still carries an index-8 fingertip, so with a camera, one mounted
bulb mesh and an intersecting ray the ray-cast hit is NOT null and
`pointing` is true, contradicting the claim that every shorter-than-21
frame yields a null hit with pointing false. -/
theorem null_short_landmarks_counterexample :
    (List.replicate 9 (⟨0, 0, 0⟩ : Landmark)).length < 21
    ∧ (performRaycast (fun _ _ => [{ distance := 1, point := ⟨0, 0, 0⟩ }])
        (some ⟨0⟩) (some (List.replicate 9 ⟨0, 0, 0⟩))
        (some [some { id := 1, mesh := some ⟨some 0, some 1⟩,
                      isOn := false }])).pointing = true
    ∧ (performRaycast (fun _ _ => [{ distance := 1, point := ⟨0, 0, 0⟩ }])
        (some ⟨0⟩) (some (List.replicate 9 ⟨0, 0, 0⟩))
        (some [some { id := 1, mesh := some ⟨some 0, some 1⟩,
                      isOn := false }])).hitInfo ≠ none := by
  refine ⟨by norm_num, ?_, ?_⟩ <;>
    simp [performRaycast, getFingerTipPosition, findIntersectedBulb,
      getIntersections, sortByDistance, insertByDistance, userDataIdOrNull,
      List.filterMap]

/-- C5 (amended): a null landmark input, or one with fewer than 21
entries, yields a null pinch distance, forces the exposed strength to 0
and the exposed pinching state to false, and fires no transition; the
ray-cast state resets to null hit with pointing false whenever the
landmark input is null or lacks an index-8 entry (fewer than 9
entries).  All embedded functions are total, so neither computation
throws. -/
theorem null_short_landmarks_claim :
    ∀ (sqrt : ℚ → ℚ) (intersect : IntersectFn) (camera : Option Camera)
      (bulbRefs : Option (List (Option BulbRef)))
      (landmarks : Option (List Landmark)) (st : PinchHookState),
      (landmarks = none ∨ ∃ l, landmarks = some l ∧ l.length < 21) →
      (calculatePinchDistance sqrt landmarks = none
       ∧ (calculatePinchStrengthStep sqrt landmarks st).1.pinchStrength = 0
       ∧ (calculatePinchStrengthStep sqrt landmarks st).1.isPinching = false
       ∧ (calculatePinchStrengthStep sqrt landmarks st).2 = none)
      ∧ ((landmarks = none ∨ ∃ l, landmarks = some l ∧ l.length ≤ 8) →
         performRaycast intersect camera landmarks bulbRefs =
           { hitInfo := none, pointing := false, lastHitId := none }) := by
  intro sqrt intersect camera bulbRefs landmarks st hshort
  have hdist : calculatePinchDistance sqrt landmarks = none := by
    rcases hshort with rfl | ⟨l, rfl, hlen⟩
    · rfl
    · simp [calculatePinchDistance, hlen]
  refine ⟨⟨hdist, ?_, ?_, ?_⟩, ?_⟩
  · simp [calculatePinchStrengthStep, hdist]
  · simp [calculatePinchStrengthStep, hdist]
  · simp [calculatePinchStrengthStep, hdist]
  · intro hvshort
    have htip : getFingerTipPosition landmarks = none := by
      rcases hvshort with rfl | ⟨l, rfl, hlen⟩
      · rfl
      · simp [getFingerTipPosition, List.getElem?_eq_none hlen]
    cases camera with
    | none => simp [performRaycast, htip]
    | some cam => simp [performRaycast, htip]

/-- C5 witness: a 5-entry landmark frame is both shorter than 21 and
lacks an index-8 entry, so the pinch distance is null, the exposed
strength is 0, pinching is false, and the ray cast resets to the
neutral state. -/
theorem null_short_landmarks_claim_witness :
    calculatePinchDistance (fun q => q)
        (some (List.replicate 5 ⟨0, 0, 0⟩)) = none
    ∧ performRaycast (fun _ _ => []) (some ⟨0⟩)
        (some (List.replicate 5 ⟨0, 0, 0⟩)) (some []) =
      { hitInfo := none, pointing := false, lastHitId := none } := by
  have h := null_short_landmarks_claim (fun q => q) (fun _ _ => [])
    (some ⟨0⟩) (some []) (some (List.replicate 5 ⟨0, 0, 0⟩))
    ⟨false, false, 0⟩
    (Or.inr ⟨List.replicate 5 ⟨0, 0, 0⟩, rfl, by norm_num⟩)
  exact ⟨h.1.1, h.2 (Or.inr ⟨List.replicate 5 ⟨0, 0, 0⟩, rfl, by norm_num⟩)⟩

/- ### Claim theorems: event log -/

theorem addEventList_of_lt {α : Type} (e : α) (l : List α)
    (h : l.length < MAX_LOG_ENTRIES) : addEventList e l = l ++ [e] := by
  unfold addEventList
  rw [if_neg]
  simp only [List.length_append, List.length_cons, List.length_nil]
  omega

theorem addEventList_of_eq {α : Type} (e : α) (l : List α)
    (h : l.length = MAX_LOG_ENTRIES) : addEventList e l = l.tail ++ [e] := by
  unfold addEventList
  rw [if_pos]
  · cases l with
    | nil => simp [MAX_LOG_ENTRIES] at h
    | cons a t => simp
  · simp only [List.length_append, List.length_cons, List.length_nil]
    omega

theorem addEventList_run_range (n : ℕ) (hn : n ≤ MAX_LOG_ENTRIES) :
    (List.range n).foldl (fun l e => addEventList e l) ([] : List ℕ) =
      List.range n := by
  induction n with
  | zero => rfl
  | succ k ih =>
    have hk : k ≤ MAX_LOG_ENTRIES := Nat.le_of_succ_le hn
    rw [List.range_succ, List.foldl_append, ih hk]
    simp only [List.foldl_cons, List.foldl_nil]
    have hlen : (List.range k).length < MAX_LOG_ENTRIES := by
      simp only [List.length_range]
      omega
    rw [addEventList_of_lt _ _ hlen, ← List.range_succ]

/-- C6: the event log never exceeds `MAX_LOG_ENTRIES` (1000): below
capacity an insertion appends at the end preserving order, at capacity
it appends at the end and evicts exactly the oldest entry; after
inserting capacity+1 distinct events into an empty log, the log holds
exactly the last 1000 of them in insertion order — the earliest is gone
and the most recent present. -/
theorem event_log_fifo_claim :
    (∀ (α : Type) (e : α) (l : List α),
      l.length ≤ MAX_LOG_ENTRIES →
        (addEventList e l).length ≤ MAX_LOG_ENTRIES)
    ∧ (∀ (α : Type) (e : α) (l : List α),
        l.length < MAX_LOG_ENTRIES → addEventList e l = l ++ [e])
    ∧ (∀ (α : Type) (e : α) (l : List α),
        l.length = MAX_LOG_ENTRIES → addEventList e l = l.tail ++ [e])
    ∧ ((List.range (MAX_LOG_ENTRIES + 1)).foldl
          (fun l e => addEventList e l) ([] : List ℕ) =
        List.range' 1 MAX_LOG_ENTRIES
       ∧ ((List.range (MAX_LOG_ENTRIES + 1)).foldl
            (fun l e => addEventList e l) ([] : List ℕ)).length =
          MAX_LOG_ENTRIES
       ∧ 0 ∉ (List.range (MAX_LOG_ENTRIES + 1)).foldl
            (fun l e => addEventList e l) ([] : List ℕ)
       ∧ MAX_LOG_ENTRIES ∈ (List.range (MAX_LOG_ENTRIES + 1)).foldl
            (fun l e => addEventList e l) ([] : List ℕ)) := by
  have hrun : (List.range (MAX_LOG_ENTRIES + 1)).foldl
      (fun l e => addEventList e l) ([] : List ℕ) =
        List.range' 1 MAX_LOG_ENTRIES := by
    rw [List.range_succ, List.foldl_append,
      addEventList_run_range MAX_LOG_ENTRIES le_rfl]
    simp only [List.foldl_cons, List.foldl_nil]
    rw [addEventList_of_eq _ _ (List.length_range MAX_LOG_ENTRIES),
      List.tail_range]
    have hconcat := List.range'_1_concat 1 (MAX_LOG_ENTRIES - 1)
    simp only [MAX_LOG_ENTRIES] at hconcat ⊢
    norm_num at hconcat ⊢
    rw [hconcat]
  refine ⟨?_, fun α => addEventList_of_lt, fun α => addEventList_of_eq,
    hrun, ?_, ?_, ?_⟩
  · intro α e l h
    unfold addEventList
    by_cases hc : MAX_LOG_ENTRIES < (l ++ [e]).length
    · rw [if_pos hc]
      simp only [List.length_tail, List.length_append, List.length_cons,
        List.length_nil]
      omega
    · rw [if_neg hc]
      omega
  · rw [hrun]
    simp [List.length_range']
  · rw [hrun]
    simp [List.mem_range'_1]
  · rw [hrun]
    simp [List.mem_range'_1, MAX_LOG_ENTRIES]

/-- C6 witness: inserting into an empty log (below capacity) appends at
the end. -/
theorem event_log_fifo_claim_witness :
    addEventList (0 : ℕ) [] = [0] := by
  have h := event_log_fifo_claim.2.1 ℕ 0 []
    (by simp [MAX_LOG_ENTRIES])
  simpa using h

/- ### Claim theorems: summary metrics -/

theorem round2_zero : round2 0 = 0 := by
  norm_num [round2, jsRound]

theorem round2_natCast (n : ℕ) : round2 (n : ℚ) = n := by
  unfold round2 jsRound
  rw [show ((n:ℚ) * 100 + 1/2) = ((n * 100 : ℤ) : ℚ) + 1/2 by push_cast; ring,
    Int.floor_int_add]
  push_cast
  rw [show ((1:ℚ)/2) = 1/2 from rfl]
  norm_num

/-- C7: the summary's accuracy is `successfulHits / totalAttempts × 100`
rounded to two decimals (0 with no attempts), and its miss-to-hit ratio
is `misses / successfulHits` rounded to two decimals when there are hits
and the raw miss count otherwise; 7 hits and 3 misses out of 10 attempts
give accuracy 70.00 and ratio 0.43. -/
theorem summary_accuracy_claim :
    ∀ (now sessionStart : ℚ) (d : MetricsData),
      ((getMetricsSummary now sessionStart d).accuracy =
        if 0 < d.currentSession.totalAttempts then
          round2 ((d.currentSession.successfulHits : ℚ) /
            (d.currentSession.totalAttempts : ℚ) * 100)
        else 0)
      ∧ (0 < d.currentSession.successfulHits →
          (getMetricsSummary now sessionStart d).missToHitRatio =
            round2 ((d.currentSession.misses : ℚ) /
              (d.currentSession.successfulHits : ℚ)))
      ∧ (d.currentSession.successfulHits = 0 →
          (getMetricsSummary now sessionStart d).missToHitRatio =
            (d.currentSession.misses : ℚ))
      ∧ (d.currentSession.successfulHits = 7 →
          d.currentSession.misses = 3 →
          d.currentSession.totalAttempts = 10 →
          (getMetricsSummary now sessionStart d).accuracy = 70
          ∧ (getMetricsSummary now sessionStart d).missToHitRatio =
              43 / 100) := by
  intro now sessionStart d
  refine ⟨?_, ?_, ?_, ?_⟩
  · by_cases h : 0 < d.currentSession.totalAttempts
    · simp [getMetricsSummary, h]
    · simp [getMetricsSummary, h, round2_zero]
  · intro h
    simp [getMetricsSummary, h]
  · intro h
    simp [getMetricsSummary, h, round2_natCast]
  · intro h7 h3 h10
    constructor
    · simp only [getMetricsSummary, h7, h10]
      norm_num [round2, jsRound]
    · simp only [getMetricsSummary, h7, h3]
      norm_num [round2, jsRound]

/-- C7 witness: a session with 7 successful toggles and 3 misses in 10
attempts summarizes to accuracy 70.00 and miss-to-hit ratio 0.43. -/
theorem summary_accuracy_claim_witness :
    (getMetricsSummary 0 0
        { events := [], fpsHistory := [], lastFrameTime := 0,
          currentSession := ⟨10, 7, 3, 0, [], [], none, none⟩,
          systemMetrics := ⟨0, 0⟩ }).accuracy = 70
    ∧ (getMetricsSummary 0 0
        { events := [], fpsHistory := [], lastFrameTime := 0,
          currentSession := ⟨10, 7, 3, 0, [], [], none, none⟩,
          systemMetrics := ⟨0, 0⟩ }).missToHitRatio = 43 / 100 := by
  exact (summary_accuracy_claim 0 0 _).2.2.2 rfl rfl rfl

/- ### Claim theorems: fps tracking -/

theorem foldl_add_map (g : ℚ → ℚ) (l : List ℚ) (a : ℚ) :
    l.foldl (fun acc x => acc + g x) a = a + (l.map g).sum := by
  induction l generalizing a with
  | nil => simp
  | cons b t ih => simp [ih, add_assoc]

theorem jsReduceSum_eq_sum (l : List ℚ) : jsReduceSum l = l.sum := by
  cases l with
  | nil => simp [jsReduceSum]
  | cons h t =>
    have := foldl_add_map id t h
    simpa [jsReduceSum] using this

theorem fpsWindowStats_of_ge (sqrt : ℚ → ℚ) (history : List ℚ)
    (old : SystemMetrics) (h : 10 ≤ history.length) :
    fpsWindowStats sqrt history old =
      { averageFPS := jsRound (meanSpec history),
        fpsStability :=
          if 0 < meanSpec history then
            sqrt (popVarianceSpec history) / meanSpec history
          else 1 } := by
  unfold fpsWindowStats
  rw [if_pos h]
  have hmean : jsReduceSum history / (history.length : ℚ) =
      meanSpec history := by
    rw [jsReduceSum_eq_sum]
    rfl
  have hvar : history.foldl
      (fun acc f => acc + (f - meanSpec history) ^ 2) 0 /
        (history.length : ℚ) = popVarianceSpec history := by
    rw [foldl_add_map (fun f => (f - meanSpec history) ^ 2) history 0,
      zero_add]
    rfl
  simp only [hmean]
  rw [hvar]

theorem meanSpec_replicate (n : ℕ) (c : ℚ) (hn : n ≠ 0) :
    meanSpec (List.replicate n c) = c := by
  have hn' : (n : ℚ) ≠ 0 := Nat.cast_ne_zero.mpr hn
  unfold meanSpec
  rw [List.length_replicate, List.sum_replicate, nsmul_eq_mul, mul_comm,
    mul_div_assoc, div_self hn', mul_one]

theorem popVarianceSpec_replicate (n : ℕ) (c : ℚ) (hn : n ≠ 0) :
    popVarianceSpec (List.replicate n c) = 0 := by
  unfold popVarianceSpec
  rw [meanSpec_replicate n c hn, List.map_replicate]
  simp

/-- C8: once the rolling fps window (capacity 60) holds at least 10
samples, the tracker exposes `averageFPS = round(mean)` and
`fpsStability` equal to the population standard deviation divided by the
mean (1 when the mean is zero); a window of constant positive samples
yields `fpsStability = 0`. -/
theorem fps_stats_claim :
    ∀ (sqrt : ℚ → ℚ) (now : ℚ) (d : MetricsData),
      (d.fpsHistory.length ≤ FPS_SAMPLE_SIZE →
        (trackFPS sqrt now d).fpsHistory.length ≤ FPS_SAMPLE_SIZE)
      ∧ (10 ≤ (trackFPS sqrt now d).fpsHistory.length →
          (trackFPS sqrt now d).systemMetrics.averageFPS =
            jsRound (meanSpec (trackFPS sqrt now d).fpsHistory)
          ∧ (0 < meanSpec (trackFPS sqrt now d).fpsHistory →
              (trackFPS sqrt now d).systemMetrics.fpsStability =
                sqrt (popVarianceSpec (trackFPS sqrt now d).fpsHistory) /
                  meanSpec (trackFPS sqrt now d).fpsHistory)
          ∧ (meanSpec (trackFPS sqrt now d).fpsHistory = 0 →
              (trackFPS sqrt now d).systemMetrics.fpsStability = 1))
      ∧ (∀ (n : ℕ) (c : ℚ), sqrt 0 = 0 → 10 ≤ n → 0 < c →
          (trackFPS sqrt now d).fpsHistory = List.replicate n c →
          (trackFPS sqrt now d).systemMetrics.fpsStability = 0) := by
  intro sqrt now d
  have hhist : (trackFPS sqrt now d).fpsHistory =
      fpsWindowPush (1000 / (now - d.lastFrameTime)) d.fpsHistory := rfl
  have hsys : (trackFPS sqrt now d).systemMetrics =
      fpsWindowStats sqrt
        (fpsWindowPush (1000 / (now - d.lastFrameTime)) d.fpsHistory)
        d.systemMetrics := rfl
  refine ⟨?_, ?_, ?_⟩
  · intro hlen
    rw [hhist]
    unfold fpsWindowPush
    by_cases hc : FPS_SAMPLE_SIZE <
        (d.fpsHistory ++ [1000 / (now - d.lastFrameTime)]).length
    · rw [if_pos hc]
      simp only [List.length_tail, List.length_append, List.length_cons,
        List.length_nil]
      omega
    · rw [if_neg hc]
      omega
  · intro h10
    rw [hhist] at h10
    rw [hsys, hhist, fpsWindowStats_of_ge _ _ _ h10]
    refine ⟨rfl, ?_, ?_⟩
    · intro hpos
      simp only [if_pos hpos]
    · intro hzero
      rw [hzero]
      simp
  · intro n c hsqrt hn hc hrep
    have h10 : 10 ≤ (fpsWindowPush (1000 / (now - d.lastFrameTime))
        d.fpsHistory).length := by
      rw [← hhist, hrep]
      simp only [List.length_replicate]
      exact hn
    rw [hsys, fpsWindowStats_of_ge _ _ _ h10, ← hhist, hrep]
    have hne : n ≠ 0 := by omega
    rw [meanSpec_replicate n c hne, popVarianceSpec_replicate n c hne,
      if_pos hc, hsqrt, zero_div]

/-- C8 witness: a window that reaches ten constant samples of 60 fps
(the tenth produced by a frame delta of 50/3 ms) yields stability 0. -/
theorem fps_stats_claim_witness :
    (trackFPS (fun q => q) (50/3)
        { events := [], fpsHistory := List.replicate 9 60,
          lastFrameTime := 0, currentSession := ⟨0, 0, 0, 0, [], [], none, none⟩,
          systemMetrics := ⟨0, 0⟩ }).systemMetrics.fpsStability = 0 := by
  have hrep : (trackFPS (fun q => q) (50/3)
      { events := [], fpsHistory := List.replicate 9 60,
        lastFrameTime := 0, currentSession := ⟨0, 0, 0, 0, [], [], none, none⟩,
        systemMetrics := ⟨0, 0⟩ }).fpsHistory = List.replicate 10 (60 : ℚ) := by
    show fpsWindowPush (1000 / ((50:ℚ)/3 - 0)) (List.replicate 9 60) =
      List.replicate 10 (60 : ℚ)
    unfold fpsWindowPush
    norm_num [FPS_SAMPLE_SIZE]
    rw [← List.replicate_succ' ]
  exact (fps_stats_claim (fun q => q) (50/3) _).2.2 10 60 rfl (by norm_num)
    (by norm_num) hrep

/- ### Claim theorems: CSV export -/

/-- C9: the CSV event section renders exactly one row per logged event
under the fixed header; within a row the numeric latency, dwell-time and
distance cells render as the empty string whenever the corresponding
payload field is absent, and the success cell is always the literal
string "true" or "false". -/
theorem csv_event_rows_claim :
    ∀ (toFixed : ℕ → ℚ → String) (showNat : ℕ → String)
      (events : List MetricEvent),
      (buildCSVEventSection toFixed showNat events).length =
        events.length + 1
      ∧ (buildCSVEventSection toFixed showNat events).head? =
          some csvEventHeader
      ∧ ∀ e : MetricEvent,
        (e.data.latency = none →
          (eventRowCells toFixed showNat e)[4]? = some "")
      ∧ (e.data.dwellTime = none →
          (eventRowCells toFixed showNat e)[5]? = some "")
      ∧ (e.data.distance = none →
          (eventRowCells toFixed showNat e)[6]? = some "")
      ∧ ((eventRowCells toFixed showNat e)[7]? = some "true"
         ∨ (eventRowCells toFixed showNat e)[7]? = some "false")
      ∧ (eventRowCells toFixed showNat e).length = 8 := by
  intro toFixed showNat events
  refine ⟨?_, ?_, ?_⟩
  · simp [buildCSVEventSection]
  · simp [buildCSVEventSection]
  · intro e
    refine ⟨?_, ?_, ?_, ?_, ?_⟩
    · intro h
      simp [eventRowCells, optionalNumberField, h]
    · intro h
      simp [eventRowCells, optionalNumberField, h]
    · intro h
      simp [eventRowCells, optionalNumberField, h]
    · by_cases h : e.data.successful.getD false
      · left
        simp [eventRowCells, h]
      · right
        simp [eventRowCells, h]
    · simp [eventRowCells]

/-- C9 witness: a MISS event carrying no latency and no dwell time
renders empty strings in those cells and the literal "false" in the
success cell. -/
theorem csv_event_rows_claim_witness :
    (eventRowCells (fun _ _ => "0.00") (fun _ => "1")
        { id := "a", type := "MISS", timestamp := 0,
          data := { targetId := none, timestamp := 0, latency := none,
                    dwellTime := none, distance := none,
                    successful := none, nearMiss := some false } })[4]? =
      some ""
    ∧ (eventRowCells (fun _ _ => "0.00") (fun _ => "1")
        { id := "a", type := "MISS", timestamp := 0,
          data := { targetId := none, timestamp := 0, latency := none,
                    dwellTime := none, distance := none,
                    successful := none, nearMiss := some false } })[7]? =
      some "false" := by
  have h := (csv_event_rows_claim (fun _ _ => "0.00") (fun _ => "1") []).2.2
    { id := "a", type := "MISS", timestamp := 0,
      data := { targetId := none, timestamp := 0, latency := none,
                dwellTime := none, distance := none,
                successful := none, nearMiss := some false } }
  refine ⟨h.1 rfl, ?_⟩
  rcases h.2.2.2.1 with hc | hc
  · simp [eventRowCells] at hc
  · exact hc

/- ### Claim theorems: interaction correlator -/

/-- C2 (spec-modelled wiring, code-embedded logging): on a pinch_start
with a current ray hit, the hit target's toggle is invoked (its on/off
state flips) and a TOGGLE_SUCCESS event is recorded whose latency equals
the time elapsed since pinch start, with the success and attempt
counters incremented; with no hit, a MISS event is recorded and the miss
and attempt counters incremented, leaving every bulb untouched. -/
theorem correlator_pinch_start_claim :
    ∀ (eventId : String) (now pinchStartTime : ℚ) (h : HitInfo)
      (bulbs : List BulbRef) (d : MetricsData),
      pinchStartTime ≠ 0 →
      ((onPinchStartCorrelate eventId now pinchStartTime (some h) bulbs
          d).1 =
         bulbs.map (fun b => if some b.id = h.bulbId then
           { b with isOn := !b.isOn } else b)
       ∧ (onPinchStartCorrelate eventId now pinchStartTime (some h) bulbs
          d).2.events =
         addEvent eventId "TOGGLE_SUCCESS" { emptyEventData now with targetId := h.bulbId, latency := some (now - pinchStartTime) } d.events
       ∧ (onPinchStartCorrelate eventId now pinchStartTime (some h) bulbs
          d).2.currentSession.successfulHits =
         d.currentSession.successfulHits + 1
       ∧ (onPinchStartCorrelate eventId now pinchStartTime (some h) bulbs
          d).2.currentSession.totalAttempts =
         d.currentSession.totalAttempts + 1)
      ∧ ((onPinchStartCorrelate eventId now pinchStartTime none bulbs
          d).1 = bulbs
       ∧ (onPinchStartCorrelate eventId now pinchStartTime none bulbs
          d).2.events =
         addEvent eventId "MISS"
           { emptyEventData now with nearMiss := some false } d.events
       ∧ (onPinchStartCorrelate eventId now pinchStartTime none bulbs
          d).2.currentSession.misses = d.currentSession.misses + 1
       ∧ (onPinchStartCorrelate eventId now pinchStartTime none bulbs
          d).2.currentSession.totalAttempts =
         d.currentSession.totalAttempts + 1) := by
  intro eventId now pinchStartTime h bulbs d hne
  refine ⟨⟨?_, ?_, ?_, ?_⟩, ?_, ?_, ?_, ?_⟩
  · simp [onPinchStartCorrelate, toggleBulb]
  · simp [onPinchStartCorrelate, logToggleSuccess, hne]
  · simp [onPinchStartCorrelate, logToggleSuccess]
  · simp [onPinchStartCorrelate, logToggleSuccess]
  · simp [onPinchStartCorrelate]
  · simp [onPinchStartCorrelate, logMiss, emptyEventData,
      MISS_DISTANCE_THRESHOLD]
  · simp [onPinchStartCorrelate, logMiss]
  · simp [onPinchStartCorrelate, logMiss]

/-- C2 witness: a pinch that started at time 100 and lands at time 250
on bulb 2 toggles exactly that bulb and records a TOGGLE_SUCCESS whose
latency is 150. -/
theorem correlator_pinch_start_claim_witness :
    (onPinchStartCorrelate "e1" 250 100
        (some { bulbId := some 2, object := ⟨some 0, some 2⟩,
                point := ⟨0, 0, 0⟩, distance := 2,
                fingerPosition := ⟨0, 0, 0⟩ })
        [{ id := 2, mesh := some ⟨some 0, some 2⟩, isOn := false }]
        { events := [], fpsHistory := [], lastFrameTime := 0,
          currentSession := ⟨0, 0, 0, 0, [], [], none, none⟩,
          systemMetrics := ⟨0, 0⟩ }).1 =
      [{ id := 2, mesh := some ⟨some 0, some 2⟩, isOn := true }]
    ∧ (onPinchStartCorrelate "e1" 250 100
        (some { bulbId := some 2, object := ⟨some 0, some 2⟩,
                point := ⟨0, 0, 0⟩, distance := 2,
                fingerPosition := ⟨0, 0, 0⟩ })
        [{ id := 2, mesh := some ⟨some 0, some 2⟩, isOn := false }]
        { events := [], fpsHistory := [], lastFrameTime := 0,
          currentSession := ⟨0, 0, 0, 0, [], [], none, none⟩,
          systemMetrics := ⟨0, 0⟩ }).2.events =
      addEvent "e1" "TOGGLE_SUCCESS" { emptyEventData 250 with targetId := some 2, latency := some 150 } [] := by
  have h := correlator_pinch_start_claim "e1" 250 100
    { bulbId := some 2, object := ⟨some 0, some 2⟩, point := ⟨0, 0, 0⟩,
      distance := 2, fingerPosition := ⟨0, 0, 0⟩ }
    [{ id := 2, mesh := some ⟨some 0, some 2⟩, isOn := false }]
    { events := [], fpsHistory := [], lastFrameTime := 0,
      currentSession := ⟨0, 0, 0, 0, [], [], none, none⟩,
      systemMetrics := ⟨0, 0⟩ }
    (by norm_num)
  refine ⟨?_, ?_⟩
  · rw [h.1.1]
    norm_num
  · rw [h.1.2.1]
    norm_num
